import Mathlib

/-!
Shallow embedding of the Flask blog application (`main.py`, `forms.py`):
data model (`User`, `BlogPost`, `Comment` tables), session state, and the
request handlers relevant to the verified claims. Pure functions model each
handler: they take the handler inputs, the session and the database state and
return the new state together with the HTTP response.
-/

namespace Blog

/-- Row of the `users` table (class `User` in `main.py`). -/
structure User where
  id : Nat
  username : String
  email : String
  password : String
deriving DecidableEq, Repr

/-- Row of the `blog_posts` table (class `BlogPost` in `main.py`).
`author_id` is the foreign key to `users.id`; the `date` column is a
display string (`db.String(250)`), so SQL orders it as a string. -/
structure BlogPost where
  id : Nat
  author_id : Nat
  title : String
  subtitle : String
  date : String
  body : String
  img_url : String
deriving DecidableEq, Repr

/-- Row of the `comments` table (class `Comment` in `main.py`).
`post_id` is a nullable foreign key (`db.ForeignKey("blog_posts.id")` without
`nullable=False`), so it is an `Option`: inserting a comment whose
`parent_post` lookup returned `None` stores NULL. -/
structure Comment where
  id : Nat
  post_id : Option Nat
  author_id : Nat
  text : String
  date : String
deriving DecidableEq, Repr

/-- The three relational tables of the application database. -/
structure DB where
  users : List User
  posts : List BlogPost
  comments : List Comment
deriving DecidableEq, Repr

/-- Flask-Login session state: either no logged-in user (`current_user` is
anonymous) or a logged-in user identified by `current_user.id`. -/
inductive Session where
  | anonymous : Session
  | loggedIn (uid : Nat) : Session
deriving DecidableEq, Repr

/-- The HTTP response a handler produces: a rendered template, a redirect,
an abort (403 from `admin_only`, 401 from `login_required` since no
`login_view` is configured), or an unhandled server fault (an exception such
as using a `None` query result). -/
inductive Response where
  | render (template : String) : Response
  | redirect (target : String) : Response
  | abort403 : Response
  | abort401 : Response
  | fault : Response
deriving DecidableEq, Repr

/-- Result of one request: the database after all commits, the session after
the request, the flashed messages, and the response. -/
structure HandlerResult where
  db : DB
  session : Session
  flashes : List String
  response : Response
deriving DecidableEq, Repr

/-- WTForms `DataRequired` validator on a string field: fails on an empty or
whitespace-only value (the validator strips the string and rejects a falsy
result), i.e. succeeds exactly when some character is not whitespace. -/
def dataRequired (data : String) : Bool :=
  data.data.any (fun c => !c.isWhitespace)

/-- Auto-increment primary key for an insert: one more than the largest id in
use (SQLite-style). -/
def nextId (ids : List Nat) : Nat := ids.foldr max 0 + 1

/-- Insert `x` into a list already sorted by `key` descending, keeping it
sorted (helper for the SQL `ORDER BY key DESC` embedding). -/
def insertDescBy {α : Type} (key : α → String) (x : α) : List α → List α
  | [] => [x]
  | y :: t =>
      if (key y).data < (key x).data then x :: y :: t
      else y :: insertDescBy key x t

/-- Sort a list by `key` descending: the embedding of
`query.order_by(col.desc())`. -/
def sortDescBy {α : Type} (key : α → String) : List α → List α
  | [] => []
  | x :: t => insertDescBy key x (sortDescBy key t)

/-- Decorator `admin_only` (`main.py` lines 85-95): aborts with HTTP 403
unless `current_user.is_authenticated and current_user.id == 1`; otherwise
runs the wrapped handler. `abort(403)` raises before the handler body, so the
state is unchanged on the 403 path. -/
def admin_only (f : Session → DB → HandlerResult) (s : Session) (db : DB) :
    HandlerResult :=
  match s with
  | .anonymous => ⟨db, s, [], .abort403⟩
  | .loggedIn uid =>
      if uid ≠ 1 then ⟨db, s, [], .abort403⟩ else f s db

/-- Flask-Login `login_required` decorator: runs the handler only for an
authenticated session. `main.py` never sets `login_manager.login_view`, so an
unauthenticated request gets `abort(401)` rather than a redirect. -/
def login_required (f : Session → DB → HandlerResult) (s : Session) (db : DB) :
    HandlerResult :=
  match s with
  | .anonymous => ⟨db, s, [], .abort401⟩
  | .loggedIn _ => f s db

/-- Handler `get_all_posts` (`main.py` lines 104-112), query part: the posts
shown on the requested page, i.e.
`BlogPost.query.order_by(BlogPost.date.desc()).paginate(page=page, per_page=5)`.
-/
def get_all_posts (page : Nat) (db : DB) : List BlogPost :=
  ((sortDescBy (fun p => p.date) db.posts).drop ((page - 1) * 5)).take 5

/-- The `page` query parameter: `request.args.get("page", 1, type=int)`
defaults to 1 when absent. -/
def pageArg (arg : Option Nat) : Nat := arg.getD 1

/-- Handler `get_all_posts` including the query-parameter default. -/
def get_all_posts_route (arg : Option Nat) (db : DB) : List BlogPost :=
  get_all_posts (pageArg arg) db

/-- Data submitted through `RegisterUserForm` (`forms.py`): username, email
and password fields, each with a `DataRequired` validator. -/
structure RegisterFormData where
  username : String
  email : String
  password : String
deriving DecidableEq, Repr

/-- `RegisterUserForm` validation: every field passes `DataRequired`. -/
def registerFormValid (f : RegisterFormData) : Bool :=
  dataRequired f.username && dataRequired f.email && dataRequired f.password

/-- Handler `register` (`main.py` lines 115-144). `submission` is `none` for
a GET (or a non-submitted form) and `some f` for a POST of form data `f`.
On a valid submission the password is hashed (the hash primitive is a
parameter, delegated to Werkzeug in the source), then the `User` table is
checked for the email; a duplicate flashes and redirects to login without
touching the database or the session, otherwise the new user row is inserted,
committed, logged in and the handler redirects home. -/
def register (hash : String → String) (submission : Option RegisterFormData)
    (s : Session) (db : DB) : HandlerResult :=
  match submission with
  | none => ⟨db, s, [], .render "register.html"⟩
  | some f =>
      if registerFormValid f then
        let hash_and_salted_password := hash f.password
        match db.users.find? (fun u => u.email == f.email) with
        | some _ =>
            ⟨db, s, ["E-mail address already signed up, login instead"],
              .redirect "/login"⟩
        | none =>
            let new_user : User :=
              { id := nextId (db.users.map (fun u => u.id))
                username := f.username
                email := f.email
                password := hash_and_salted_password }
            ⟨{ db with users := db.users ++ [new_user] },
              .loggedIn new_user.id, [], .redirect "/"⟩
      else ⟨db, s, [], .render "register.html"⟩

/-- The comment list loaded by `show_post` (`main.py` line 187):
`Comment.query.order_by(Comment.date.desc()).all()` — every comment in the
system, ordered by date descending, with no filter on the post. -/
def show_post_loaded_comments (db : DB) : List Comment :=
  sortDescBy (fun c => c.date) db.comments

/-- Handler `show_post` (`main.py` lines 178-210). `submission` is `none`
for a GET and `some text` for a POST of the `CommentForm` whose
`comment_field` holds `text` (validator: `DataRequired`). The handler loads
the requested post and all comments, then: if the form validates and the user
is unauthenticated it flashes and redirects to login; if the form validates
and the user is authenticated it inserts a comment stamped `now` whose
`post_id` comes from the loaded post (NULL when the post id is unknown) and
re-renders; otherwise it just renders the page. -/
def show_post (post_id : Nat) (submission : Option String) (s : Session)
    (db : DB) (now : String) : HandlerResult :=
  let requested_post := db.posts.find? (fun p => p.id == post_id)
  let _comments := show_post_loaded_comments db
  match submission with
  | some text =>
      if dataRequired text then
        match s with
        | .anonymous =>
            ⟨db, s, ["Please login or register to post comments."],
              .redirect "/login"⟩
        | .loggedIn uid =>
            let new_comment : Comment :=
              { id := nextId (db.comments.map (fun c => c.id))
                post_id := requested_post.map (fun p => p.id)
                author_id := uid
                text := text
                date := now }
            ⟨{ db with comments := db.comments ++ [new_comment] }, s, [],
              .render "post.html"⟩
      else ⟨db, s, [], .render "post.html"⟩
  | none => ⟨db, s, [], .render "post.html"⟩

/-- Data submitted through `CreatePostForm` (`forms.py`): title, subtitle,
image URL and body, all `DataRequired`, the image URL additionally checked by
the `URL()` validator. -/
structure CreatePostFormData where
  title : String
  subtitle : String
  img_url : String
  body : String
deriving DecidableEq, Repr

/-- `CreatePostForm` validation; the `URL()` well-formedness predicate is a
parameter (framework code, not in this repository). -/
def createPostFormValid (urlOk : String → Bool) (f : CreatePostFormData) :
    Bool :=
  dataRequired f.title && dataRequired f.subtitle &&
    (dataRequired f.img_url && urlOk f.img_url) && dataRequired f.body

/-- Body of handler `add_new_post` (`main.py` lines 225-249), before the
`admin_only` wrapper: on a valid submission insert a new post authored by
`current_user` and dated `now`, then redirect home; otherwise render the
form. An anonymous session would fault on `current_user.id`, but the wrapper
prevents that path. -/
def add_new_post_body (urlOk : String → Bool)
    (submission : Option CreatePostFormData) (now : String) (s : Session)
    (db : DB) : HandlerResult :=
  match submission with
  | none => ⟨db, s, [], .render "make-post.html"⟩
  | some f =>
      if createPostFormValid urlOk f then
        match s with
        | .anonymous => ⟨db, s, [], .fault⟩
        | .loggedIn uid =>
            let new_post : BlogPost :=
              { id := nextId (db.posts.map (fun p => p.id))
                author_id := uid
                title := f.title
                subtitle := f.subtitle
                date := now
                body := f.body
                img_url := f.img_url }
            ⟨{ db with posts := db.posts ++ [new_post] }, s, [],
              .redirect "/"⟩
      else ⟨db, s, [], .render "make-post.html"⟩

/-- Handler `add_new_post`: the body wrapped in `admin_only`. -/
def add_new_post (urlOk : String → Bool)
    (submission : Option CreatePostFormData) (now : String) :
    Session → DB → HandlerResult :=
  admin_only (add_new_post_body urlOk submission now)

/-- Body of handler `edit_post` (`main.py` lines 252-271), before the
`admin_only` wrapper. `BlogPost.query.get(post_id)` is used unchecked: when
no post has the id, `post.title` on `None` raises, i.e. the request faults.
On a valid submission the post row is updated in place (title, subtitle,
image URL, body; date and author untouched) and the handler redirects to the
post page; otherwise the pre-filled form is rendered. -/
def edit_post_body (urlOk : String → Bool) (post_id : Nat)
    (submission : Option CreatePostFormData) (s : Session) (db : DB) :
    HandlerResult :=
  match db.posts.find? (fun p => p.id == post_id) with
  | none => ⟨db, s, [], .fault⟩
  | some post =>
      match submission with
      | some f =>
          if createPostFormValid urlOk f then
            let updated : BlogPost :=
              { post with
                  title := f.title
                  subtitle := f.subtitle
                  img_url := f.img_url
                  body := f.body }
            ⟨{ db with
                posts := db.posts.map
                  (fun p => if p.id == post_id then updated else p) },
              s, [], .redirect ("/post/" ++ toString post.id)⟩
          else ⟨db, s, [], .render "make-post.html"⟩
      | none => ⟨db, s, [], .render "make-post.html"⟩

/-- Handler `edit_post`: the body wrapped in `admin_only`. -/
def edit_post (urlOk : String → Bool) (post_id : Nat)
    (submission : Option CreatePostFormData) : Session → DB → HandlerResult :=
  admin_only (edit_post_body urlOk post_id submission)

/-- Body of handler `delete_all_comments` (`main.py` lines 302-314), before
the `admin_only` wrapper: queries the comments with the given `post_id`, then
deletes them one at a time, committing after each deletion, and finally
redirects to `url_for("get_all_posts", post=post_id)`. -/
def delete_all_comments_body (post_id : Nat) (s : Session) (db : DB) :
    HandlerResult :=
  let comments_to_delete := db.comments.filter (fun c => c.post_id == some post_id)
  let comments := comments_to_delete.foldl
    (fun acc c => acc.eraseP (fun x => x.id == c.id)) db.comments
  ⟨{ db with comments := comments }, s, [],
    .redirect ("/?post=" ++ toString post_id)⟩

/-- Handler `delete_all_comments`: the body wrapped in `admin_only`. -/
def delete_all_comments (post_id : Nat) : Session → DB → HandlerResult :=
  admin_only (delete_all_comments_body post_id)

/-- Body of handler `delete_post` (`main.py` lines 274-286), before the
`admin_only` wrapper. It first calls `delete_all_comments(post_id)` — the
decorated function, so its `admin_only` check runs again; a 403 there would
propagate as the whole response (in the source `abort` raises). Then
`BlogPost.query.get(post_id)` is used unchecked: a missing post makes
`db.session.delete(None)` raise, i.e. the request faults (after the comment
deletions were already committed). Otherwise the post row is deleted and the
handler redirects home. -/
def delete_post_body (post_id : Nat) (s : Session) (db : DB) : HandlerResult :=
  let r1 := delete_all_comments post_id s db
  if r1.response = .abort403 then r1
  else
    match r1.db.posts.find? (fun p => p.id == post_id) with
    | none => ⟨r1.db, s, r1.flashes, .fault⟩
    | some _ =>
        ⟨{ r1.db with posts := r1.db.posts.eraseP (fun p => p.id == post_id) },
          s, r1.flashes, .redirect "/"⟩

/-- Handler `delete_post`: the body wrapped in `admin_only`. -/
def delete_post (post_id : Nat) : Session → DB → HandlerResult :=
  admin_only (delete_post_body post_id)

/-- Body of handler `delete_comment` (`main.py` lines 289-299), before the
`login_required` wrapper. `Comment.query.get(comment_id)` is used unchecked:
a missing comment makes `db.session.delete(None)` raise. Otherwise the
comment row is deleted (no ownership or admin check) and the handler
redirects to the post page of the `post_id` route argument. -/
def delete_comment_body (post_id : Nat) (comment_id : Nat) (s : Session)
    (db : DB) : HandlerResult :=
  match db.comments.find? (fun c => c.id == comment_id) with
  | none => ⟨db, s, [], .fault⟩
  | some _ =>
      ⟨{ db with comments := db.comments.eraseP (fun c => c.id == comment_id) },
        s, [], .redirect ("/post/" ++ toString post_id)⟩

/-- Handler `delete_comment`: the body wrapped in `login_required`. -/
def delete_comment (post_id : Nat) (comment_id : Nat) :
    Session → DB → HandlerResult :=
  login_required (delete_comment_body post_id comment_id)

end Blog

namespace Blog

/-! ## Concrete fixtures used to evaluate the handlers on sample states -/

/-- An empty database. -/
def emptyDB : DB := ⟨[], [], []⟩

/-- A sample database: an admin (id 1), a second user, two posts and one
comment on each post. -/
def dbW : DB :=
  { users := [⟨1, "admin", "a@x.com", "h1"⟩, ⟨2, "bob", "b@x.com", "h2"⟩]
    posts := [⟨1, 1, "T1", "S1", "2021-01", "B1", "http://x/1"⟩,
              ⟨2, 1, "T2", "S2", "2021-02", "B2", "http://x/2"⟩]
    comments := [⟨1, some 1, 2, "c one", "2021-03"⟩,
                 ⟨2, some 2, 2, "c two", "2021-04"⟩] }

/-- Sample post number `i`, dated `2021-i` with a zero-padded month so that
string order coincides with recency. -/
def mkPost (i : Nat) : BlogPost :=
  { id := i
    author_id := 1
    title := "T" ++ toString i
    subtitle := "S"
    date := (if i < 10 then "2021-0" else "2021-") ++ toString i
    body := "B"
    img_url := "http://x" }

/-- A database holding twelve posts dated `2021-01` through `2021-12`. -/
def twelveDB : DB := ⟨[], (List.range 12).map (fun i => mkPost (i + 1)), []⟩

/-! ## Helper lemmas -/

theorem str_le_of_data_lt {s t : String} (h : s.data < t.data) : s ≤ t :=
  le_of_lt (String.lt_iff_toList_lt.mpr h)

theorem str_le_of_not_data_lt {s t : String} (h : ¬ s.data < t.data) : t ≤ s := by
  rw [String.le_iff_toList_le]
  exact not_lt.mp h

theorem perm_insertDescBy {α : Type} (key : α → String) (x : α) (l : List α) :
    (insertDescBy key x l).Perm (x :: l) := by
  induction l with
  | nil => exact List.Perm.refl _
  | cons y t ih =>
      by_cases h : (key y).data < (key x).data
      · simp only [insertDescBy, if_pos h]
        exact List.Perm.refl _
      · simp only [insertDescBy, if_neg h]
        exact (ih.cons y).trans (List.Perm.swap x y t)

theorem perm_sortDescBy {α : Type} (key : α → String) (l : List α) :
    (sortDescBy key l).Perm l := by
  induction l with
  | nil => exact List.Perm.refl _
  | cons x t ih =>
      exact (perm_insertDescBy key x (sortDescBy key t)).trans (ih.cons x)

theorem pairwise_insertDescBy {α : Type} (key : α → String) (x : α)
    {l : List α} (h : l.Pairwise (fun a b => key b ≤ key a)) :
    (insertDescBy key x l).Pairwise (fun a b => key b ≤ key a) := by
  induction l with
  | nil =>
      exact List.Pairwise.cons (fun z hz => absurd hz (List.not_mem_nil z))
        List.Pairwise.nil
  | cons y t ih =>
      rw [List.pairwise_cons] at h
      by_cases hlt : (key y).data < (key x).data
      · simp only [insertDescBy, if_pos hlt]
        refine List.pairwise_cons.mpr ⟨?_, List.pairwise_cons.mpr h⟩
        intro z hz
        rcases List.mem_cons.mp hz with hz | hz
        · exact hz ▸ str_le_of_data_lt hlt
        · exact le_trans (h.1 z hz) (str_le_of_data_lt hlt)
      · simp only [insertDescBy, if_neg hlt]
        refine List.pairwise_cons.mpr ⟨?_, ih h.2⟩
        intro z hz
        rcases List.mem_cons.mp ((perm_insertDescBy key x t).mem_iff.mp hz)
          with hz | hz
        · exact hz ▸ str_le_of_not_data_lt hlt
        · exact h.1 z hz

theorem pairwise_sortDescBy {α : Type} (key : α → String) (l : List α) :
    (sortDescBy key l).Pairwise (fun a b => key b ≤ key a) := by
  induction l with
  | nil => simp [sortDescBy]
  | cons x t ih => exact pairwise_insertDescBy key x ih

theorem foldl_eraseP_cons {α : Type} (key : α → Nat) (a : α)
    (acc targets : List α)
    (h : ∀ c ∈ targets, (key a == key c) = false) :
    targets.foldl (fun d c => d.eraseP (fun x => key x == key c)) (a :: acc)
      = a :: targets.foldl (fun d c => d.eraseP (fun x => key x == key c)) acc := by
  induction targets generalizing acc with
  | nil => rfl
  | cons c ts ih =>
      simp only [List.foldl_cons]
      rw [List.eraseP_cons_of_neg (by simp [h c (List.mem_cons_self c ts)])]
      exact ih _ (fun d hd => h d (List.mem_cons_of_mem c hd))

theorem foldl_eraseP_filter {α : Type} (key : α → Nat) (p : α → Bool)
    (l : List α) (h : (l.map key).Nodup) :
    (l.filter p).foldl (fun d c => d.eraseP (fun x => key x == key c)) l
      = l.filter (fun c => !(p c)) := by
  induction l with
  | nil => rfl
  | cons a t ih =>
      have hna : key a ∉ t.map key := (List.nodup_cons.mp (by simpa using h)).1
      have hnd : (t.map key).Nodup := (List.nodup_cons.mp (by simpa using h)).2
      by_cases hpa : p a
      · rw [List.filter_cons_of_pos hpa, List.filter_cons_of_neg (by simp [hpa])]
        simp only [List.foldl_cons]
        rw [List.eraseP_cons_of_pos (by simp)]
        exact ih hnd
      · have hpa' : p a = false := Bool.not_eq_true _ ▸ eq_false_of_ne_true hpa
        rw [List.filter_cons_of_neg (by simp [hpa']),
          List.filter_cons_of_pos (by simp [hpa'])]
        rw [foldl_eraseP_cons key a t (t.filter p) ?_]
        · rw [ih hnd]
        · intro c hc
          refine beq_eq_false_iff_ne.mpr (fun he => hna ?_)
          exact he ▸ List.mem_map_of_mem key (List.mem_of_mem_filter hc)

theorem eraseP_key_all_ne {α : Type} (key : α → Nat) (n : Nat) (l : List α)
    (h : (l.map key).Nodup) :
    ∀ b ∈ l.eraseP (fun x => key x == n), (key b == n) = false := by
  induction l with
  | nil => intro b hb; simp at hb
  | cons a t ih =>
      have hna : key a ∉ t.map key := (List.nodup_cons.mp (by simpa using h)).1
      have hnd : (t.map key).Nodup := (List.nodup_cons.mp (by simpa using h)).2
      by_cases hpa : (key a == n) = true
      · rw [List.eraseP_cons_of_pos (p := fun x => key x == n) hpa]
        intro b hb
        refine beq_eq_false_iff_ne.mpr (fun he => hna ?_)
        have : key b = key a := he.trans (beq_iff_eq.mp hpa).symm
        exact this ▸ List.mem_map_of_mem key hb
      · rw [List.eraseP_cons_of_neg (p := fun x => key x == n) hpa]
        intro b hb
        rcases List.mem_cons.mp hb with hb | hb
        · exact hb ▸ Bool.not_eq_true _ ▸ eq_false_of_ne_true hpa
        · exact ih hnd b hb

theorem find?_isSome_of_mem {α : Type} {p : α → Bool} {l : List α} {a : α}
    (ha : a ∈ l) (hp : p a = true) : ∃ b, l.find? p = some b := by
  cases h : l.find? p with
  | some b => exact ⟨b, rfl⟩
  | none => exact absurd hp (by simpa using List.find?_eq_none.mp h a ha)

end Blog

namespace Blog

/-! ## Claims -/

/-- Claim C1: for every request to an admin-only handler (new-post,
edit-post, delete-post, delete-comments) the handler body runs if and only
if the session user is authenticated with id 1; in every other case the
response is HTTP 403 with the database, session and flashes untouched. The
first three conjuncts settle the gate for every wrapped handler, and the
remaining four show that each of the four admin routes is exactly its body
wrapped in `admin_only`. -/
theorem C1_admin_only_gate :
    (∀ f : Session → DB → HandlerResult, ∀ db : DB,
        admin_only f .anonymous db = ⟨db, .anonymous, [], .abort403⟩)
    ∧ (∀ f : Session → DB → HandlerResult, ∀ db : DB, ∀ uid : Nat, uid ≠ 1 →
        admin_only f (.loggedIn uid) db = ⟨db, .loggedIn uid, [], .abort403⟩)
    ∧ (∀ f : Session → DB → HandlerResult, ∀ db : DB,
        admin_only f (.loggedIn 1) db = f (.loggedIn 1) db)
    ∧ (∀ urlOk sub now, add_new_post urlOk sub now
        = admin_only (add_new_post_body urlOk sub now))
    ∧ (∀ urlOk pid sub, edit_post urlOk pid sub
        = admin_only (edit_post_body urlOk pid sub))
    ∧ (∀ pid, delete_post pid = admin_only (delete_post_body pid))
    ∧ (∀ pid, delete_all_comments pid
        = admin_only (delete_all_comments_body pid)) := by
  refine ⟨fun f db => rfl, fun f db uid h => ?_, fun f db => ?_,
    fun _ _ _ => rfl, fun _ _ _ => rfl, fun _ => rfl, fun _ => rfl⟩
  · simp [admin_only, h]
  · simp [admin_only]

/-- Witness for C1: a non-admin authenticated user (id 2) gets 403 from an
admin-only handler with no state change. -/
theorem C1_admin_only_gate_witness :
    admin_only (fun s db => ⟨db, s, [], .render "make-post.html"⟩)
        (.loggedIn 2) emptyDB
      = ⟨emptyDB, .loggedIn 2, [], .abort403⟩ :=
  C1_admin_only_gate.2.1 _ emptyDB 2 (by decide)

/-- Claim C7: a comment submission with non-empty text while the session is
unauthenticated flashes a message and redirects to the login page, leaving
the database (in particular the comment table) unchanged. -/
theorem C7_unauthenticated_comment_flash_redirect (post_id : Nat)
    (text : String) (db : DB) (now : String) (hv : dataRequired text = true) :
    show_post post_id (some text) .anonymous db now
      = ⟨db, .anonymous, ["Please login or register to post comments."],
          .redirect "/login"⟩ := by
  simp [show_post, hv]

/-- Witness for C7: an anonymous submission of "Nice" on post 1. -/
theorem C7_unauthenticated_comment_flash_redirect_witness :
    show_post 1 (some "Nice") .anonymous dbW "2021-05"
      = ⟨dbW, .anonymous, ["Please login or register to post comments."],
          .redirect "/login"⟩ :=
  C7_unauthenticated_comment_flash_redirect 1 "Nice" dbW "2021-05" (by decide)

/-- Claim C10: in the comment-submission path of `show_post`, form
validation runs before the authentication check — an unauthenticated POST
with whitespace-only comment text fails validation and just re-renders the
post page, with no flash and no redirect to login. -/
theorem C10_validation_precedes_auth (post_id : Nat) (text : String)
    (db : DB) (now : String) (hv : dataRequired text = false) :
    show_post post_id (some text) .anonymous db now
      = ⟨db, .anonymous, [], .render "post.html"⟩ := by
  simp [show_post, hv]

/-- Witness for C10: an anonymous submission of an empty comment. -/
theorem C10_validation_precedes_auth_witness :
    show_post 1 (some "") .anonymous dbW "2021-05"
      = ⟨dbW, .anonymous, [], .render "post.html"⟩ :=
  C10_validation_precedes_auth 1 "" dbW "2021-05" (by decide)

/-- Claim C2: any authenticated user (any `uid`) deleting any existing
comment `c` succeeds: the comment is removed and the handler redirects to
the post page, with no ownership or admin check beyond authentication. The
database invariant used is primary-key uniqueness of comment ids. -/
theorem C2_delete_comment_any_authenticated_user (post_id uid : Nat)
    (c : Comment) (db : DB)
    (hnd : (db.comments.map (fun x => x.id)).Nodup) (hc : c ∈ db.comments) :
    (delete_comment post_id c.id (.loggedIn uid) db).response
        = .redirect ("/post/" ++ toString post_id)
    ∧ (delete_comment post_id c.id (.loggedIn uid) db).db.comments
        = db.comments.eraseP (fun x => x.id == c.id)
    ∧ c ∉ (delete_comment post_id c.id (.loggedIn uid) db).db.comments
    ∧ (delete_comment post_id c.id (.loggedIn uid) db).session
        = .loggedIn uid
    ∧ (delete_comment post_id c.id (.loggedIn uid) db).db.users = db.users
    ∧ (delete_comment post_id c.id (.loggedIn uid) db).db.posts
        = db.posts := by
  obtain ⟨w, hw⟩ :=
    find?_isSome_of_mem (p := fun x => x.id == c.id) hc (by simp)
  refine ⟨?_, ?_, ?_, ?_, ?_, ?_⟩
  · simp [delete_comment, login_required, delete_comment_body, hw]
  · simp [delete_comment, login_required, delete_comment_body, hw]
  · intro hmem
    have hb := eraseP_key_all_ne (fun x => x.id) c.id db.comments hnd c
      (by simpa [delete_comment, login_required, delete_comment_body, hw]
        using hmem)
    simp at hb
  · simp [delete_comment, login_required, delete_comment_body, hw]
  · simp [delete_comment, login_required, delete_comment_body, hw]
  · simp [delete_comment, login_required, delete_comment_body, hw]

/-- Witness for C2: user 2 (not the admin, not the author of the comment)
deletes the admin-owned comment 1 of post 1 — deletion succeeds. -/
theorem C2_delete_comment_any_authenticated_user_witness :
    (delete_comment 1 1 (.loggedIn 2)
        ⟨[⟨1, "admin", "a@x.com", "h1"⟩, ⟨2, "bob", "b@x.com", "h2"⟩],
         [⟨1, 1, "T1", "S1", "2021-01", "B1", "http://x/1"⟩],
         [⟨1, some 1, 1, "admins comment", "2021-03"⟩]⟩).response
      = .redirect "/post/1"
    ∧ (⟨1, some 1, 1, "admins comment", "2021-03"⟩ : Comment) ∉
        (delete_comment 1 1 (.loggedIn 2)
          ⟨[⟨1, "admin", "a@x.com", "h1"⟩, ⟨2, "bob", "b@x.com", "h2"⟩],
           [⟨1, 1, "T1", "S1", "2021-01", "B1", "http://x/1"⟩],
           [⟨1, some 1, 1, "admins comment", "2021-03"⟩]⟩).db.comments := by
  have h := C2_delete_comment_any_authenticated_user 1 2
    ⟨1, some 1, 1, "admins comment", "2021-03"⟩
    ⟨[⟨1, "admin", "a@x.com", "h1"⟩, ⟨2, "bob", "b@x.com", "h2"⟩],
     [⟨1, 1, "T1", "S1", "2021-01", "B1", "http://x/1"⟩],
     [⟨1, some 1, 1, "admins comment", "2021-03"⟩]⟩
    (by decide) (by decide)
  exact ⟨h.1, h.2.2.1⟩

/-- Claim C9: for an authenticated `delete_comment` request, the resulting
database, session and flashes are determined solely by `comment_id` — the
`post_id` route argument does not constrain which comment is deleted and is
used only as the redirect target. -/
theorem C9_delete_comment_post_id_only_redirect (pid pid2 cid uid : Nat)
    (db : DB) :
    (delete_comment pid cid (.loggedIn uid) db).db
        = (delete_comment pid2 cid (.loggedIn uid) db).db
    ∧ (delete_comment pid cid (.loggedIn uid) db).session
        = (delete_comment pid2 cid (.loggedIn uid) db).session
    ∧ (delete_comment pid cid (.loggedIn uid) db).flashes
        = (delete_comment pid2 cid (.loggedIn uid) db).flashes
    ∧ ((db.comments.find? (fun x => x.id == cid)).isSome →
        (delete_comment pid cid (.loggedIn uid) db).response
            = .redirect ("/post/" ++ toString pid)
        ∧ (delete_comment pid cid (.loggedIn uid) db).db.comments
            = db.comments.eraseP (fun x => x.id == cid)) := by
  cases hw : db.comments.find? (fun x => x.id == cid) with
  | none =>
      refine ⟨?_, ?_, ?_, ?_⟩ <;>
        simp [delete_comment, login_required, delete_comment_body, hw]
  | some w =>
      refine ⟨?_, ?_, ?_, fun _ => ⟨?_, ?_⟩⟩ <;>
        simp [delete_comment, login_required, delete_comment_body, hw]

/-- Witness for C9: comment 2 belongs to post 2, yet deleting it through the
route of post 1 removes it all the same and redirects to post 1. -/
theorem C9_delete_comment_post_id_only_redirect_witness :
    (delete_comment 1 2 (.loggedIn 2) dbW).db
        = (delete_comment 99 2 (.loggedIn 2) dbW).db
    ∧ (delete_comment 1 2 (.loggedIn 2) dbW).response = .redirect "/post/1"
    ∧ (delete_comment 1 2 (.loggedIn 2) dbW).db.comments
        = [⟨1, some 1, 2, "c one", "2021-03"⟩] := by
  have h := C9_delete_comment_post_id_only_redirect 1 99 2 2 dbW
  have h4 := h.2.2.2 (by decide)
  exact ⟨h.1, h4.1, h4.2.trans (by decide)⟩

end Blog

namespace Blog

/-- Claim C3: `get_all_posts` pages the posts sorted by date descending at 5
per page, with the page number defaulting to 1 when the query parameter is
absent; with 12 stored posts, page 1 holds the 5 most recent by date and
page 3 holds 2 posts. -/
theorem C3_pagination :
    (∀ page : Nat, ∀ db : DB, (get_all_posts page db).length ≤ 5)
    ∧ (∀ page : Nat, ∀ db : DB,
        (get_all_posts page db).Pairwise (fun a b => b.date ≤ a.date))
    ∧ (∀ db : DB, get_all_posts_route none db = get_all_posts 1 db)
    ∧ get_all_posts 1 twelveDB
        = [mkPost 12, mkPost 11, mkPost 10, mkPost 9, mkPost 8]
    ∧ (get_all_posts 3 twelveDB).length = 2 := by
  refine ⟨?_, ?_, fun db => rfl, by decide, by decide⟩
  · intro page db
    exact List.length_take_le 5 _
  · intro page db
    exact List.Pairwise.sublist
      ((List.take_sublist _ _).trans (List.drop_sublist _ _))
      (pairwise_sortDescBy _ _)

/-- Claim C6: the comment list loaded by `show_post` is a permutation of ALL
comments in the database, sorted by date descending; in particular every
comment whose parent is a different post (or no post) is loaded too. -/
theorem C6_show_post_loads_all_comments (db : DB) :
    (show_post_loaded_comments db).Perm db.comments
    ∧ (show_post_loaded_comments db).Pairwise (fun a b => b.date ≤ a.date)
    ∧ (∀ post_id : Nat, ∀ c ∈ db.comments, c.post_id ≠ some post_id →
        c ∈ show_post_loaded_comments db) := by
  refine ⟨perm_sortDescBy _ _, pairwise_sortDescBy _ _, ?_⟩
  intro _ c hc _
  exact (perm_sortDescBy (fun x => x.date) db.comments).mem_iff.mpr hc

/-- Witness for C6: viewing post 1, the comment attached to post 2 is still
among the loaded comments. -/
theorem C6_show_post_loads_all_comments_witness :
    (⟨2, some 2, 2, "c two", "2021-04"⟩ : Comment)
      ∈ show_post_loaded_comments dbW :=
  (C6_show_post_loads_all_comments dbW).2.2 1
    ⟨2, some 2, 2, "c two", "2021-04"⟩ (by decide) (by decide)

/-- Claim C8: with an id that matches no record, the unchecked
`query.get` results make `edit_post`, `delete_post` and `delete_comment`
fault (the null result is used without a check) instead of returning a
graceful 404 or flashed message. -/
theorem C8_unchecked_get_faults (urlOk : String → Bool)
    (sub : Option CreatePostFormData) (pid cid uid : Nat) (db : DB)
    (hp : db.posts.find? (fun q => q.id == pid) = none)
    (hc : db.comments.find? (fun x => x.id == cid) = none) :
    (edit_post urlOk pid sub (.loggedIn 1) db).response = .fault
    ∧ (delete_post pid (.loggedIn 1) db).response = .fault
    ∧ (delete_comment pid cid (.loggedIn uid) db).response = .fault := by
  refine ⟨?_, ?_, ?_⟩
  · simp [edit_post, admin_only, edit_post_body, hp]
  · simp [delete_post, admin_only, delete_post_body, delete_all_comments,
      delete_all_comments_body, hp]
  · simp [delete_comment, login_required, delete_comment_body, hc]

/-- Witness for C8: ids 99 match nothing in the sample database. -/
theorem C8_unchecked_get_faults_witness :
    (edit_post (fun _ => true) 99 none (.loggedIn 1) dbW).response = .fault
    ∧ (delete_post 99 (.loggedIn 1) dbW).response = .fault
    ∧ (delete_comment 99 99 (.loggedIn 2) dbW).response = .fault :=
  C8_unchecked_get_faults (fun _ => true) none 99 99 2 dbW
    (by decide) (by decide)

end Blog

namespace Blog

/-- Claim C4: a valid registration whose email already belongs to an
existing user creates no new `User` row, leaves the database and session
exactly as they were (so an unauthenticated session stays unauthenticated),
flashes a message and redirects to the login page; consequently a second
registration with the same email, run on the state produced by a first
successful one, never creates a second `User`. -/
theorem C4_register_duplicate_email (hash : String → String)
    (f : RegisterFormData) (s : Session) (db : DB)
    (hv : registerFormValid f = true) :
    ((∃ u ∈ db.users, u.email = f.email) →
      register hash (some f) s db
        = ⟨db, s, ["E-mail address already signed up, login instead"],
            .redirect "/login"⟩)
    ∧ ((∀ u ∈ db.users, u.email ≠ f.email) →
      (register hash (some f) (register hash (some f) s db).session
          (register hash (some f) s db).db).db.users
        = (register hash (some f) s db).db.users) := by
  constructor
  · rintro ⟨u, hu, he⟩
    obtain ⟨w, hw⟩ := find?_isSome_of_mem (p := fun x => x.email == f.email)
      hu (beq_iff_eq.mpr he)
    simp [register, hv, hw]
  · intro h
    have hnone : db.users.find? (fun u => u.email == f.email) = none :=
      List.find?_eq_none.mpr
        (fun u hu => by simp [beq_eq_false_iff_ne.mpr (h u hu)])
    simp [register, hv, hnone, List.find?_append]

/-- Witness for C4: registering bob's email a second time changes nothing
and redirects to login. -/
theorem C4_register_duplicate_email_witness :
    register (fun p => p ++ "#") (some ⟨"carol", "b@x.com", "pw"⟩)
        .anonymous dbW
      = ⟨dbW, .anonymous, ["E-mail address already signed up, login instead"],
          .redirect "/login"⟩ :=
  (C4_register_duplicate_email (fun p => p ++ "#") ⟨"carol", "b@x.com", "pw"⟩
      .anonymous dbW (by decide)).1
    ⟨⟨2, "bob", "b@x.com", "h2"⟩, by decide, rfl⟩

/-- Claim C5: the admin deleting an existing post `p` removes every comment
whose `post_id` is `p.id` (through the per-comment deletion loop of
`delete_all_comments`), keeps every comment of any other post, then removes
`p` itself and redirects home. Primary-key uniqueness of comment ids and
post ids is assumed. -/
theorem C5_delete_post_cascade (p : BlogPost) (db : DB) (hp : p ∈ db.posts)
    (hcn : (db.comments.map (fun x => x.id)).Nodup)
    (hpn : (db.posts.map (fun x => x.id)).Nodup) :
    (delete_post p.id (.loggedIn 1) db).response = .redirect "/"
    ∧ (delete_post p.id (.loggedIn 1) db).db.comments
        = db.comments.filter (fun c => !(c.post_id == some p.id))
    ∧ (∀ c ∈ db.comments, c.post_id ≠ some p.id →
        c ∈ (delete_post p.id (.loggedIn 1) db).db.comments)
    ∧ (delete_post p.id (.loggedIn 1) db).db.posts
        = db.posts.eraseP (fun x => x.id == p.id)
    ∧ p ∉ (delete_post p.id (.loggedIn 1) db).db.posts
    ∧ (delete_post p.id (.loggedIn 1) db).session = .loggedIn 1 := by
  obtain ⟨w, hw⟩ := find?_isSome_of_mem (p := fun x => x.id == p.id)
    hp (by simp)
  have hfold := foldl_eraseP_filter (fun x => x.id)
    (fun c => c.post_id == some p.id) db.comments hcn
  have hres : delete_post p.id (.loggedIn 1) db
      = ⟨⟨db.users, db.posts.eraseP (fun x => x.id == p.id),
          db.comments.filter (fun c => !(c.post_id == some p.id))⟩,
         .loggedIn 1, [], .redirect "/"⟩ := by
    simp [delete_post, admin_only, delete_post_body, delete_all_comments,
      delete_all_comments_body, hw, hfold]
  refine ⟨by rw [hres], by rw [hres], ?_, by rw [hres], ?_, by rw [hres]⟩
  · intro c hc hne
    rw [hres]
    exact List.mem_filter.mpr
      ⟨hc, by simp [beq_eq_false_iff_ne.mpr hne]⟩
  · rw [hres]
    intro hmem
    have hb := eraseP_key_all_ne (fun x => x.id) p.id db.posts hpn p hmem
    simp at hb

/-- Witness for C5: the admin deletes post 1 of the sample database; the
comment on post 1 disappears, the comment on post 2 survives, and post 1 is
gone. -/
theorem C5_delete_post_cascade_witness :
    (delete_post 1 (.loggedIn 1) dbW).response = .redirect "/"
    ∧ (delete_post 1 (.loggedIn 1) dbW).db.comments
        = [⟨2, some 2, 2, "c two", "2021-04"⟩]
    ∧ (⟨1, 1, "T1", "S1", "2021-01", "B1", "http://x/1"⟩ : BlogPost)
        ∉ (delete_post 1 (.loggedIn 1) dbW).db.posts := by
  have h := C5_delete_post_cascade
    ⟨1, 1, "T1", "S1", "2021-01", "B1", "http://x/1"⟩ dbW
    (by decide) (by decide) (by decide)
  exact ⟨h.1, h.2.1.trans (by decide), h.2.2.2.2.1⟩

end Blog
